import Mathlib

/-! Shallow embedding of `src/main.py` (PayAnyWay → Airtable webhook bridge).

The embedding models, from the source:
  * `calculate_signature` (src/main.py lines 51–77): the MD5-based inbound
    signature over the merged request parameters;
  * `build_xml_response` (lines 192–248): the outbound response envelope and
    its MD5 signature (serialization to an XML byte string is not modelled;
    the envelope records the embedded fields in order);
  * `moneta_webhook` (lines 359–490): health-check detection, parameter
    unification across the three transports, merchant and signature checks,
    the Airtable e-mail lookup and record update (modelled as oracles),
    and response construction.

MD5 itself is implemented concretely (RFC 1321) over `Nat` arithmetic
mod 2^32, so that signatures evaluate on concrete inputs.
-/

namespace PayAnyWay

/-! Section: MD5 (RFC 1321), bytes as `Nat < 256`, words as `Nat < 2^32`. -/

def M32 : Nat := 4294967296

/-- Left-rotate a 32-bit word by `s` bits. -/
def rotl32 (x s : Nat) : Nat := ((x <<< s) % M32) ||| (x >>> (32 - s))

/-- The 64 sine-derived round constants of MD5. -/
def md5K : List Nat :=
  [0xd76aa478, 0xe8c7b756, 0x242070db, 0xc1bdceee,
   0xf57c0faf, 0x4787c62a, 0xa8304613, 0xfd469501,
   0x698098d8, 0x8b44f7af, 0xffff5bb1, 0x895cd7be,
   0x6b901122, 0xfd987193, 0xa679438e, 0x49b40821,
   0xf61e2562, 0xc040b340, 0x265e5a51, 0xe9b6c7aa,
   0xd62f105d, 0x02441453, 0xd8a1e681, 0xe7d3fbc8,
   0x21e1cde6, 0xc33707d6, 0xf4d50d87, 0x455a14ed,
   0xa9e3e905, 0xfcefa3f8, 0x676f02d9, 0x8d2a4c8a,
   0xfffa3942, 0x8771f681, 0x6d9d6122, 0xfde5380c,
   0xa4beea44, 0x4bdecfa9, 0xf6bb4b60, 0xbebfbc70,
   0x289b7ec6, 0xeaa127fa, 0xd4ef3085, 0x04881d05,
   0xd9d4d039, 0xe6db99e5, 0x1fa27cf8, 0xc4ac5665,
   0xf4292244, 0x432aff97, 0xab9423a7, 0xfc93a039,
   0x655b59c3, 0x8f0ccc92, 0xffeff47d, 0x85845dd1,
   0x6fa87e4f, 0xfe2ce6e0, 0xa3014314, 0x4e0811a1,
   0xf7537e82, 0xbd3af235, 0x2ad7d2bb, 0xeb86d391]

/-- The per-round left-rotation amounts of MD5. -/
def md5S : List Nat :=
  [7, 12, 17, 22, 7, 12, 17, 22, 7, 12, 17, 22, 7, 12, 17, 22,
   5, 9, 14, 20, 5, 9, 14, 20, 5, 9, 14, 20, 5, 9, 14, 20,
   4, 11, 16, 23, 4, 11, 16, 23, 4, 11, 16, 23, 4, 11, 16, 23,
   6, 10, 15, 21, 6, 10, 15, 21, 6, 10, 15, 21, 6, 10, 15, 21]

/-- One MD5 round: `M` is the current 16-word block, `i` the round index. -/
def md5round (M : List Nat) (st : Nat × Nat × Nat × Nat) (i : Nat) :
    Nat × Nat × Nat × Nat :=
  let a := st.1
  let b := st.2.1
  let c := st.2.2.1
  let d := st.2.2.2
  let fg : Nat × Nat :=
    if i < 16 then ((b &&& c) ||| ((b ^^^ 0xffffffff) &&& d), i)
    else if i < 32 then ((d &&& b) ||| ((d ^^^ 0xffffffff) &&& c), (5 * i + 1) % 16)
    else if i < 48 then (b ^^^ c ^^^ d, (3 * i + 5) % 16)
    else (c ^^^ (b ||| (d ^^^ 0xffffffff)), (7 * i) % 16)
  let f := (fg.1 + a + md5K.getD i 0 + M.getD fg.2 0) % M32
  (d, (b + rotl32 f (md5S.getD i 0)) % M32, b, c)

/-- Process one 16-word block, adding the result into the running state. -/
def md5block (st : Nat × Nat × Nat × Nat) (M : List Nat) :
    Nat × Nat × Nat × Nat :=
  let r := (List.range 64).foldl (md5round M) st
  ((st.1 + r.1) % M32, (st.2.1 + r.2.1) % M32,
   (st.2.2.1 + r.2.2.1) % M32, (st.2.2.2 + r.2.2.2) % M32)

/-- Fold `md5block` over the word stream, 16 words at a time; `fuel` bounds
the number of blocks (each step consumes at least one word, so the word
count is always enough fuel). Structural recursion on `fuel` keeps the
function kernel-reducible. -/
def md5wordsF : Nat → Nat × Nat × Nat × Nat → List Nat → Nat × Nat × Nat × Nat
  | 0, st, _ => st
  | _ + 1, st, [] => st
  | fuel + 1, st, w :: rest =>
      md5wordsF fuel (md5block st (w :: rest.take 15)) (rest.drop 15)

def md5words (st : Nat × Nat × Nat × Nat) (ws : List Nat) :
    Nat × Nat × Nat × Nat :=
  md5wordsF ws.length st ws

def md5init : Nat × Nat × Nat × Nat :=
  (0x67452301, 0xefcdab89, 0x98badcfe, 0x10325476)

/-- UTF-8 encoding of one code point (mirrors Python's `str.encode("utf-8")`). -/
def charUtf8 (c : Char) : List Nat :=
  let n := c.toNat
  if n < 0x80 then [n]
  else if n < 0x800 then
    [0xc0 ||| (n >>> 6), 0x80 ||| (n &&& 0x3f)]
  else if n < 0x10000 then
    [0xe0 ||| (n >>> 12), 0x80 ||| ((n >>> 6) &&& 0x3f), 0x80 ||| (n &&& 0x3f)]
  else
    [0xf0 ||| (n >>> 18), 0x80 ||| ((n >>> 12) &&& 0x3f),
     0x80 ||| ((n >>> 6) &&& 0x3f), 0x80 ||| (n &&& 0x3f)]

def utf8Bytes (s : String) : List Nat :=
  (s.data.map charUtf8).flatten

/-- The 8-byte little-endian rendering of the 64-bit message bit length. -/
def lenBytes64 (n : Nat) : List Nat :=
  [n % 256, (n >>> 8) % 256, (n >>> 16) % 256, (n >>> 24) % 256,
   (n >>> 32) % 256, (n >>> 40) % 256, (n >>> 48) % 256, (n >>> 56) % 256]

/-- MD5 padding: `0x80`, zeros to 56 mod 64, then the bit length. -/
def md5pad (msg : List Nat) : List Nat :=
  msg ++ 0x80 :: List.replicate ((119 - msg.length % 64) % 64) 0
      ++ lenBytes64 ((8 * msg.length) % 2 ^ 64)

/-- Group a byte stream into little-endian 32-bit words. -/
def bytesToWords : List Nat → List Nat
  | b0 :: b1 :: b2 :: b3 :: rest =>
      (b0 + 256 * b1 + 65536 * b2 + 16777216 * b3) :: bytesToWords rest
  | _ => []

/-- Lower-case hex digit for a nibble. -/
def hexChar (n : Nat) : Char :=
  Char.ofNat (if n < 10 then 48 + n else 87 + n)

/-- Two lower-case hex digits for a byte. -/
def byteHex (b : Nat) : List Char :=
  [hexChar (b / 16 % 16), hexChar (b % 16)]

/-- Eight lower-case hex digits for a word, little-endian byte order. -/
def wordHexLE (w : Nat) : List Char :=
  byteHex (w % 256) ++ byteHex (w / 256 % 256) ++ byteHex (w / 65536 % 256)
    ++ byteHex (w / 16777216 % 256)

/-- Model of `hashlib.md5(s.encode("utf-8")).hexdigest()`: the lower-case hex MD5
digest of the UTF-8 encoding of `s`. -/
def md5hex (s : String) : String :=
  let d := md5words md5init (bytesToWords (md5pad (utf8Bytes s)))
  String.mk (wordHexLE d.1 ++ wordHexLE d.2.1 ++ wordHexLE d.2.2.1
    ++ wordHexLE d.2.2.2)

/-! Section: configuration and Python-string helpers. -/

/-- The process-wide configuration the webhook core reads: `MNT_ID` and
`MNT_INTEGRITY_CODE` (src/main.py lines 26–27). -/
structure Config where
  mntId : String
  integrityCode : String
deriving DecidableEq

/-- ASCII lower-casing of one character; `str.lower()` restricted to the
ASCII range (all signature material in this protocol is ASCII hex). -/
def lowerChar (c : Char) : Char :=
  if 65 ≤ c.toNat ∧ c.toNat ≤ 90 then Char.ofNat (c.toNat + 32) else c

/-- Python's `str.lower()` (ASCII model). -/
def pyLower (s : String) : String :=
  String.mk (s.data.map lowerChar)

/-- Python's `s or d` for strings: `d` when `s` is empty (falsy), else `s`. -/
def pyOr (s d : String) : String :=
  if s = "" then d else s

/-! Section: dictionaries as association lists.

Python `dict` assignment `params[k] = v` and `params.get(k, d)`, modelled on
`List (String × String)`: `dinsert` overwrites the binding in place (or
appends a fresh one), `dget` reads the first binding with a default. -/

def dinsert (m : List (String × String)) (k v : String) :
    List (String × String) :=
  match m with
  | [] => [(k, v)]
  | (k0, v0) :: rest =>
      if k0 = k then (k, v) :: rest else (k0, v0) :: dinsert rest k v

def dget (m : List (String × String)) (k d : String) : String :=
  (m.lookup k).getD d

/-! Section: inbound signature (src/main.py lines 51–77). -/

/-- Model of `calculate_signature`: MD5 of
`MNT_ID + MNT_TRANSACTION_ID + MNT_OPERATION_ID + MNT_AMOUNT +
MNT_CURRENCY_CODE + MNT_SUBSCRIBER_ID + MNT_TEST_MODE + INTEGRITY_CODE`,
every absent field read as `""` except `MNT_TEST_MODE` which defaults to
`"0"`; the amount is taken exactly as received. -/
def calculate_signature (cfg : Config) (params : List (String × String)) :
    String :=
  let mnt_trx_id := dget params "MNT_TRANSACTION_ID" ""
  let mnt_op_id := dget params "MNT_OPERATION_ID" ""
  let mnt_amount_str := dget params "MNT_AMOUNT" ""
  let mnt_currency := dget params "MNT_CURRENCY_CODE" ""
  let mnt_subscriber := dget params "MNT_SUBSCRIBER_ID" ""
  let mnt_test_mode := dget params "MNT_TEST_MODE" "0"
  md5hex (cfg.mntId ++ mnt_trx_id ++ mnt_op_id ++ mnt_amount_str
    ++ mnt_currency ++ mnt_subscriber ++ mnt_test_mode ++ cfg.integrityCode)

/-- The signature check of the handler (src/main.py lines 409, 425–426):
the received `MNT_SIGNATURE` is lower-cased and compared with the
recomputed digest. -/
def signatureAccepted (cfg : Config) (params : List (String × String)) :
    Bool :=
  calculate_signature cfg params == pyLower (dget params "MNT_SIGNATURE" "")

/-! Section: outbound response envelope (src/main.py lines 192–248). -/

/-- The fields `build_xml_response` embeds into the `MNT_RESPONSE` document,
in document order. Serialization to XML text is not modelled. -/
structure XmlEnvelope where
  mntId : String
  trxId : String
  resultCode : String
  signature : String
  attributes : List (String × String)
deriving DecidableEq

/-- Model of `build_xml_response`: the outbound signature is
`MD5(result_code + mnt_id + mnt_trx_id + INTEGRITY_CODE)` (lines 230–231);
`attributes = []` models the Python `attributes=None` / empty-dict case. -/
def build_xml_response (cfg : Config) (mnt_id mnt_trx_id result_code : String)
    (attributes : List (String × String)) : XmlEnvelope :=
  { mntId := mnt_id
    trxId := mnt_trx_id
    resultCode := result_code
    signature := md5hex (result_code ++ mnt_id ++ mnt_trx_id ++ cfg.integrityCode)
    attributes := attributes }

/-! Section: requests, transports, and JSON scalars. -/

/-- A JSON scalar as Python's `json.loads` produces it; `pyStr` is Python's
`str()` on such a value (src/main.py line 404 stringifies JSON values).
Nested arrays/objects as *values* are not modelled; the protocol's fields
are scalars. -/
inductive PyScalar where
  | pstr (s : String)
  | pint (n : Int)
  | pbool (b : Bool)
  | pnull
deriving DecidableEq

def pyStr : PyScalar → String
  | .pstr s => s
  | .pint n => toString n
  | .pbool true => "True"
  | .pbool false => "False"
  | .pnull => "None"

/-- An incoming request as the handler observes it: query parameters,
`Content-Type`, the URL-encoded form fields (read only when the content
type says so), and the JSON body — `some kvs` when `request.json()`
succeeds and yields an object, `none` when the body is absent, unparsable,
or not an object. -/
structure WebRequest where
  query : List (String × String)
  contentType : String
  form : List (String × String)
  jsonBody : Option (List (String × PyScalar))
deriving DecidableEq

def isFormContent (req : WebRequest) : Bool :=
  req.contentType.startsWith "application/x-www-form-urlencoded"

def isJsonContent (req : WebRequest) : Bool :=
  req.contentType.startsWith "application/json"

/-- Model of `has_query = len(request.query_params) > 0` (line 372). -/
def hasQuery (req : WebRequest) : Bool :=
  decide (0 < req.query.length)

/-- Model of `has_form` (lines 378–380): form content type and a non-empty form. -/
def hasForm (req : WebRequest) : Bool :=
  isFormContent req && decide (0 < req.form.length)

/-- Model of `has_json` (lines 381–386): JSON content type and a non-empty object. -/
def hasJson (req : WebRequest) : Bool :=
  isJsonContent req && (match req.jsonBody with
    | some kvs => decide (0 < kvs.length)
    | none => false)

/-- Model of `has_query or has_form or has_json` (line 388). -/
def hasAnyParams (req : WebRequest) : Bool :=
  hasQuery req || hasForm req || hasJson req

/-- Fold Python `dict` assignment over a list of pairs. -/
def foldInsert (m : List (String × String)) (l : List (String × String)) :
    List (String × String) :=
  l.foldl (fun acc kv => dinsert acc kv.1 kv.2) m

/-- Parameter unification (src/main.py lines 392–404): query parameters,
then form fields (when the content type is form and the form is
non-empty), then JSON object entries (stringified), each written into the
single `params` dict so that a later source overwrites an earlier one. -/
def collectParams (req : WebRequest) : List (String × String) :=
  let p1 := foldInsert [] req.query
  let p2 := if isFormContent req && hasForm req then foldInsert p1 req.form
    else p1
  let p3 := if isJsonContent req && hasJson req then
      foldInsert p2 ((req.jsonBody.getD []).map (fun kv => (kv.1, pyStr kv.2)))
    else p2
  p3

/-! Section: the webhook handler (src/main.py lines 359–490). -/

/-- A call the handler issues against the record store: the e-mail lookup
`get_airtable_email(record_id)` or the update
`update_airtable_record(record_id, amount, status)`. -/
inductive AirtableCall where
  | getEmail (recordId : String)
  | updateRecord (recordId amount status : String)
deriving DecidableEq

def isUpdateCall : AirtableCall → Bool
  | .updateRecord _ _ _ => true
  | _ => false

/-- A raised Python exception (`HTTPException`-shaped). -/
structure PyError where
  statusCode : Nat
  detail : String
deriving DecidableEq

/-- A finished HTTP response: plain text or an XML envelope, with its
HTTP status code. -/
inductive WebResponse where
  | plainText (statusCode : Nat) (content : String)
  | xml (statusCode : Nat) (envelope : XmlEnvelope)
deriving DecidableEq

/-- How a handler invocation ends: a response, or an exception escaping
the handler uncaught. -/
inductive Outcome where
  | response (r : WebResponse)
  | raised (e : PyError)
deriving DecidableEq

/-- The handler's observable behaviour: the record-store calls it issued,
in order, and how it ended. -/
structure HandlerResult where
  calls : List AirtableCall
  outcome : Outcome
deriving DecidableEq

/-- Model of `moneta_webhook`. The two Airtable collaborators are oracles:
`emailOracle` models `get_airtable_email` (its failure is NOT caught —
line 436 sits outside any `try`), `updateOracle` models
`update_airtable_record` (every failure is caught, lines 447–464).
`inventoryDump` abstracts the `json.dumps([...float(amount)...])`
rendering of the INVENTORY attribute (line 469): floating-point
formatting is outside this embedding, and no claim depends on the
success-path attribute payload. -/
def moneta_webhook (cfg : Config) (req : WebRequest)
    (emailOracle : String → Except PyError String)
    (updateOracle : String → String → String → Except PyError Unit)
    (inventoryDump : String → String) : HandlerResult :=
  if hasAnyParams req = false then
    { calls := [], outcome := .response (.plainText 200 "OK") }
  else
    let params := collectParams req
    let mnt_id_rx := dget params "MNT_ID" ""
    let mnt_trx_id_rx := dget params "MNT_TRANSACTION_ID" ""
    let mnt_amount_rx := dget params "MNT_AMOUNT" ""
    let mnt_test_mode_rx := dget params "MNT_TEST_MODE" "0"
    if mnt_id_rx ≠ cfg.mntId then
      { calls := []
        outcome := .response (.xml 200 (build_xml_response cfg
          (pyOr mnt_id_rx "") (pyOr mnt_trx_id_rx "") "500" [])) }
    else if signatureAccepted cfg params = false then
      { calls := []
        outcome := .response (.xml 200 (build_xml_response cfg
          cfg.mntId (pyOr mnt_trx_id_rx "") "500" [])) }
    else
      match emailOracle mnt_trx_id_rx with
      | .error e => { calls := [.getEmail mnt_trx_id_rx], outcome := .raised e }
      | .ok email =>
        let status_value := if mnt_test_mode_rx = "1" then "Test Paid" else "Paid"
        match updateOracle mnt_trx_id_rx mnt_amount_rx status_value with
        | .error _ =>
          { calls := [.getEmail mnt_trx_id_rx,
              .updateRecord mnt_trx_id_rx mnt_amount_rx status_value]
            outcome := .response (.xml 200 (build_xml_response cfg
              cfg.mntId mnt_trx_id_rx "500" [])) }
        | .ok _ =>
          let attributes := [("INVENTORY", inventoryDump mnt_amount_rx),
            ("CUSTOMER", email)].filter (fun kv => kv.2 ≠ "")
          { calls := [.getEmail mnt_trx_id_rx,
              .updateRecord mnt_trx_id_rx mnt_amount_rx status_value]
            outcome := .response (.xml 200 (build_xml_response cfg
              cfg.mntId mnt_trx_id_rx "200" attributes)) }

/-- Left-biased choice on optional values, used to state which source a
merged parameter comes from. -/
def oor (a b : Option String) : Option String :=
  match a with
  | some v => some v
  | none => b

/-! Helper lemmas. -/

set_option maxRecDepth 10000

theorem lowerChar_hexDigit : ∀ m, m < 16 → lowerChar (hexChar m) = hexChar m := by
  decide

theorem map_lowerChar_byteHex (b : Nat) :
    (byteHex b).map lowerChar = byteHex b := by
  unfold byteHex
  rw [List.map_cons, List.map_cons, List.map_nil,
    lowerChar_hexDigit _ (Nat.mod_lt _ (by norm_num)),
    lowerChar_hexDigit _ (Nat.mod_lt _ (by norm_num))]

theorem map_lowerChar_wordHexLE (w : Nat) :
    (wordHexLE w).map lowerChar = wordHexLE w := by
  unfold wordHexLE
  simp [List.map_append, map_lowerChar_byteHex]

theorem pyLower_md5hex (s : String) : pyLower (md5hex s) = md5hex s := by
  unfold md5hex pyLower
  simp [List.map_append, map_lowerChar_wordHexLE]

theorem calculate_signature_eq (cfg : Config) (params : List (String × String)) :
    calculate_signature cfg params =
      md5hex (cfg.mntId ++ dget params "MNT_TRANSACTION_ID" ""
        ++ dget params "MNT_OPERATION_ID" "" ++ dget params "MNT_AMOUNT" ""
        ++ dget params "MNT_CURRENCY_CODE" "" ++ dget params "MNT_SUBSCRIBER_ID" ""
        ++ dget params "MNT_TEST_MODE" "0" ++ cfg.integrityCode) := rfl

theorem pyLower_calculate_signature (cfg : Config)
    (params : List (String × String)) :
    pyLower (calculate_signature cfg params) = calculate_signature cfg params := by
  rw [calculate_signature_eq, pyLower_md5hex]

theorem lookup_dinsert (m : List (String × String)) (a v k : String) :
    (dinsert m a v).lookup k = if k = a then some v else m.lookup k := by
  induction m with
  | nil =>
    by_cases hk : k = a
    · subst hk
      simp [dinsert, List.lookup]
    · simp [dinsert, List.lookup, hk, beq_eq_false_iff_ne.mpr hk]
  | cons hd tl ih =>
    obtain ⟨k0, v0⟩ := hd
    by_cases h0 : k0 = a
    · subst h0
      by_cases hk : k = k0
      · subst hk
        simp [dinsert, List.lookup]
      · simp [dinsert, List.lookup, hk, beq_eq_false_iff_ne.mpr hk]
    · by_cases hk : k = k0
      · subst hk
        have hka : ¬ k = a := h0
        simp [dinsert, h0, List.lookup, hka]
      · simp [dinsert, h0, List.lookup, hk, beq_eq_false_iff_ne.mpr hk, ih]

theorem dget_dinsert_same (m : List (String × String)) (k v d : String) :
    dget (dinsert m k v) k d = v := by
  simp [dget, lookup_dinsert]

theorem dget_dinsert_other (m : List (String × String)) (a v k d : String)
    (h : k ≠ a) : dget (dinsert m a v) k d = dget m k d := by
  simp [dget, lookup_dinsert, h]

theorem calculate_signature_dinsert_sig (cfg : Config)
    (params : List (String × String)) (s : String) :
    calculate_signature cfg (dinsert params "MNT_SIGNATURE" s) =
      calculate_signature cfg params := by
  rw [calculate_signature_eq, calculate_signature_eq]
  rw [dget_dinsert_other _ _ _ _ _ (by decide),
    dget_dinsert_other _ _ _ _ _ (by decide),
    dget_dinsert_other _ _ _ _ _ (by decide),
    dget_dinsert_other _ _ _ _ _ (by decide),
    dget_dinsert_other _ _ _ _ _ (by decide),
    dget_dinsert_other _ _ _ _ _ (by decide)]

theorem lookup_append (l1 l2 : List (String × String)) (k : String) :
    (l1 ++ l2).lookup k = oor (l1.lookup k) (l2.lookup k) := by
  induction l1 with
  | nil => simp [oor, List.lookup]
  | cons hd tl ih =>
    obtain ⟨a, v⟩ := hd
    by_cases hk : k = a
    · subst hk
      simp [List.lookup, oor]
    · simp [List.lookup, hk, beq_eq_false_iff_ne.mpr hk, ih]

theorem lookup_foldInsert (l m : List (String × String)) (k : String) :
    (foldInsert m l).lookup k = oor (l.reverse.lookup k) (m.lookup k) := by
  induction l generalizing m with
  | nil => simp [foldInsert, oor]
  | cons hd tl ih =>
    obtain ⟨a, v⟩ := hd
    show (foldInsert (dinsert m a v) tl).lookup k = _
    rw [ih, List.reverse_cons, lookup_append, lookup_dinsert]
    cases htl : tl.reverse.lookup k
    · by_cases hk : k = a
      · subst hk
        simp [oor, List.lookup]
      · simp [oor, List.lookup, hk, beq_eq_false_iff_ne.mpr hk]
    · simp [oor]

theorem collectParams_of_no_params (req : WebRequest)
    (h : hasAnyParams req = false) : collectParams req = [] := by
  have h3 : (hasQuery req = false ∧ hasForm req = false) ∧ hasJson req = false := by
    simpa [hasAnyParams] using h
  obtain ⟨⟨hqf, hff⟩, hjf⟩ := h3
  have hq : req.query = [] := by
    simp [hasQuery] at hqf
    exact hqf
  simp [collectParams, foldInsert, hq, hff, hjf]

theorem hasAnyParams_of_collect_ne (req : WebRequest)
    (h : collectParams req ≠ []) : hasAnyParams req = true := by
  cases hA : hasAnyParams req
  · exact absurd (collectParams_of_no_params req hA) h
  · rfl

theorem oor_none_right (a : Option String) : oor a none = a := by
  cases a <;> rfl

theorem oor_none_left (b : Option String) : oor none b = b := rfl

theorem pyOr_empty_default (s : String) : pyOr s "" = s := by
  by_cases h : s = "" <;> simp [pyOr, h]

/-! Branch characterizations of `moneta_webhook`, one per terminal outcome
of the source's control flow (src/main.py lines 388–490). -/

theorem webhook_merchant_mismatch (cfg : Config) (req : WebRequest)
    (em : String → Except PyError String)
    (up : String → String → String → Except PyError Unit)
    (inv : String → String)
    (hp : collectParams req ≠ [])
    (hm : dget (collectParams req) "MNT_ID" "" ≠ cfg.mntId) :
    moneta_webhook cfg req em up inv =
      { calls := []
        outcome := .response (.xml 200 (build_xml_response cfg
          (pyOr (dget (collectParams req) "MNT_ID" "") "")
          (pyOr (dget (collectParams req) "MNT_TRANSACTION_ID" "") "")
          "500" [])) } := by
  have hA := hasAnyParams_of_collect_ne req hp
  simp [moneta_webhook, hA, hm]

theorem webhook_sig_mismatch (cfg : Config) (req : WebRequest)
    (em : String → Except PyError String)
    (up : String → String → String → Except PyError Unit)
    (inv : String → String)
    (hp : collectParams req ≠ [])
    (hm : dget (collectParams req) "MNT_ID" "" = cfg.mntId)
    (hs : signatureAccepted cfg (collectParams req) = false) :
    moneta_webhook cfg req em up inv =
      { calls := []
        outcome := .response (.xml 200 (build_xml_response cfg
          cfg.mntId
          (pyOr (dget (collectParams req) "MNT_TRANSACTION_ID" "") "")
          "500" [])) } := by
  have hA := hasAnyParams_of_collect_ne req hp
  simp [moneta_webhook, hA, hm, hs]

theorem webhook_email_error (cfg : Config) (req : WebRequest)
    (em : String → Except PyError String)
    (up : String → String → String → Except PyError Unit)
    (inv : String → String) (e : PyError)
    (hp : collectParams req ≠ [])
    (hm : dget (collectParams req) "MNT_ID" "" = cfg.mntId)
    (hs : signatureAccepted cfg (collectParams req) = true)
    (he : em (dget (collectParams req) "MNT_TRANSACTION_ID" "") =
      Except.error e) :
    moneta_webhook cfg req em up inv =
      { calls := [.getEmail (dget (collectParams req) "MNT_TRANSACTION_ID" "")]
        outcome := .raised e } := by
  have hA := hasAnyParams_of_collect_ne req hp
  simp [moneta_webhook, hA, hm, hs, he]

theorem webhook_update_error (cfg : Config) (req : WebRequest)
    (em : String → Except PyError String)
    (up : String → String → String → Except PyError Unit)
    (inv : String → String) (v : String) (e : PyError)
    (hp : collectParams req ≠ [])
    (hm : dget (collectParams req) "MNT_ID" "" = cfg.mntId)
    (hs : signatureAccepted cfg (collectParams req) = true)
    (he : em (dget (collectParams req) "MNT_TRANSACTION_ID" "") = Except.ok v)
    (hu : up (dget (collectParams req) "MNT_TRANSACTION_ID" "")
        (dget (collectParams req) "MNT_AMOUNT" "")
        (if dget (collectParams req) "MNT_TEST_MODE" "0" = "1"
          then "Test Paid" else "Paid") = Except.error e) :
    moneta_webhook cfg req em up inv =
      { calls := [.getEmail (dget (collectParams req) "MNT_TRANSACTION_ID" ""),
          .updateRecord (dget (collectParams req) "MNT_TRANSACTION_ID" "")
            (dget (collectParams req) "MNT_AMOUNT" "")
            (if dget (collectParams req) "MNT_TEST_MODE" "0" = "1"
              then "Test Paid" else "Paid")]
        outcome := .response (.xml 200 (build_xml_response cfg
          cfg.mntId (dget (collectParams req) "MNT_TRANSACTION_ID" "")
          "500" [])) } := by
  have hA := hasAnyParams_of_collect_ne req hp
  simp [moneta_webhook, hA, hm, hs, he, hu]

theorem webhook_update_ok (cfg : Config) (req : WebRequest)
    (em : String → Except PyError String)
    (up : String → String → String → Except PyError Unit)
    (inv : String → String) (v : String)
    (hp : collectParams req ≠ [])
    (hm : dget (collectParams req) "MNT_ID" "" = cfg.mntId)
    (hs : signatureAccepted cfg (collectParams req) = true)
    (he : em (dget (collectParams req) "MNT_TRANSACTION_ID" "") = Except.ok v)
    (hu : up (dget (collectParams req) "MNT_TRANSACTION_ID" "")
        (dget (collectParams req) "MNT_AMOUNT" "")
        (if dget (collectParams req) "MNT_TEST_MODE" "0" = "1"
          then "Test Paid" else "Paid") = Except.ok ()) :
    moneta_webhook cfg req em up inv =
      { calls := [.getEmail (dget (collectParams req) "MNT_TRANSACTION_ID" ""),
          .updateRecord (dget (collectParams req) "MNT_TRANSACTION_ID" "")
            (dget (collectParams req) "MNT_AMOUNT" "")
            (if dget (collectParams req) "MNT_TEST_MODE" "0" = "1"
              then "Test Paid" else "Paid")]
        outcome := .response (.xml 200 (build_xml_response cfg
          cfg.mntId (dget (collectParams req) "MNT_TRANSACTION_ID" "")
          "200" ([("INVENTORY", inv (dget (collectParams req) "MNT_AMOUNT" "")),
            ("CUSTOMER", v)].filter (fun kv => kv.2 ≠ "")))) } := by
  have hA := hasAnyParams_of_collect_ne req hp
  simp [moneta_webhook, hA, hm, hs, he, hu]

theorem webhook_validated_calls (cfg : Config) (req : WebRequest)
    (em : String → Except PyError String)
    (up : String → String → String → Except PyError Unit)
    (inv : String → String) (v : String)
    (hp : collectParams req ≠ [])
    (hm : dget (collectParams req) "MNT_ID" "" = cfg.mntId)
    (hs : signatureAccepted cfg (collectParams req) = true)
    (he : em (dget (collectParams req) "MNT_TRANSACTION_ID" "") = Except.ok v) :
    (moneta_webhook cfg req em up inv).calls =
      [.getEmail (dget (collectParams req) "MNT_TRANSACTION_ID" ""),
        .updateRecord (dget (collectParams req) "MNT_TRANSACTION_ID" "")
          (dget (collectParams req) "MNT_AMOUNT" "")
          (if dget (collectParams req) "MNT_TEST_MODE" "0" = "1"
            then "Test Paid" else "Paid")] := by
  cases hu : up (dget (collectParams req) "MNT_TRANSACTION_ID" "")
      (dget (collectParams req) "MNT_AMOUNT" "")
      (if dget (collectParams req) "MNT_TEST_MODE" "0" = "1"
        then "Test Paid" else "Paid") with
  | error e => rw [webhook_update_error cfg req em up inv v e hp hm hs he hu]
  | ok u =>
    rw [webhook_update_ok cfg req em up inv v hp hm hs he (by rw [hu])]

/-! Claims. -/

/-- Claim C1: The inbound signature function returns the lower-case hex MD5
digest of the concatenation merchant id, transaction id, operation id,
amount as received, currency code, subscriber id, test-mode flag (default
`"0"`), integrity secret, with every absent field contributing `""` and
never raising (the function is total); in particular, with merchant id
`M1`, secret `S`, transaction id `T1`, operation id `O1`, amount
`"10.00"`, currency `RUB`, empty subscriber and test mode absent, it
returns the MD5 digest of the literal string `M1T1O110.00RUB0S`. -/
theorem inbound_signature_correct :
    (∀ (cfg : Config) (params : List (String × String)),
        calculate_signature cfg params =
          md5hex (cfg.mntId ++ dget params "MNT_TRANSACTION_ID" ""
            ++ dget params "MNT_OPERATION_ID" "" ++ dget params "MNT_AMOUNT" ""
            ++ dget params "MNT_CURRENCY_CODE" ""
            ++ dget params "MNT_SUBSCRIBER_ID" ""
            ++ dget params "MNT_TEST_MODE" "0" ++ cfg.integrityCode))
    ∧ (∀ (cfg : Config) (params : List (String × String)),
        pyLower (calculate_signature cfg params) = calculate_signature cfg params)
    ∧ calculate_signature ⟨"M1", "S"⟩
        [("MNT_TRANSACTION_ID", "T1"), ("MNT_OPERATION_ID", "O1"),
         ("MNT_AMOUNT", "10.00"), ("MNT_CURRENCY_CODE", "RUB"),
         ("MNT_SUBSCRIBER_ID", "")] = md5hex "M1T1O110.00RUB0S" :=
  ⟨calculate_signature_eq, pyLower_calculate_signature, by
    rw [calculate_signature_eq]
    exact congrArg md5hex (by decide)⟩

/-- Claim C2: Outbound-signature round trip: the envelope built by
`build_xml_response` carries `MD5(result_code + mnt_id + mnt_trx_id +
integrity_code)`, and every XML envelope the handler returns (success or
failure) has a signature that equals the digest recomputed from its own
embedded result code, merchant id and transaction id against the
configured secret. -/
theorem outbound_signature_roundtrip :
    (∀ (cfg : Config) (mnt_id mnt_trx_id result_code : String)
        (attributes : List (String × String)),
        (build_xml_response cfg mnt_id mnt_trx_id result_code attributes).signature =
          md5hex (result_code ++ mnt_id ++ mnt_trx_id ++ cfg.integrityCode))
    ∧ (∀ (cfg : Config) (req : WebRequest)
        (em : String → Except PyError String)
        (up : String → String → String → Except PyError Unit)
        (inv : String → String) (s : Nat) (env : XmlEnvelope),
        (moneta_webhook cfg req em up inv).outcome =
          Outcome.response (WebResponse.xml s env) →
        env.signature =
          md5hex (env.resultCode ++ env.mntId ++ env.trxId ++ cfg.integrityCode)) := by
  refine ⟨fun _ _ _ _ _ => rfl, ?_⟩
  intro cfg req em up inv s env h
  simp only [moneta_webhook] at h
  split at h
  · simp at h
  · split at h
    · simp at h
      obtain ⟨h1, h2⟩ := h
      subst h2
      simp [build_xml_response]
    · split at h
      · simp at h
        obtain ⟨h1, h2⟩ := h
        subst h2
        simp [build_xml_response]
      · split at h
        · simp at h
        · split at h
          · simp at h
            obtain ⟨h1, h2⟩ := h
            subst h2
            simp [build_xml_response]
          · simp at h
            obtain ⟨h1, h2⟩ := h
            subst h2
            simp [build_xml_response]

/-- Witness for claim C2: a concrete merchant-mismatch request produces an XML
envelope, and the theorem yields its signature equation. -/
theorem outbound_signature_roundtrip_witness :
    ((moneta_webhook ⟨"M1", "S"⟩ ⟨[("MNT_ID", "BAD")], "", [], none⟩
        (fun _ => .error ⟨500, "x"⟩) (fun _ _ _ => .ok ()) (fun _ => "")).outcome =
      Outcome.response (WebResponse.xml 200
        (build_xml_response ⟨"M1", "S"⟩ "BAD" "" "500" [])))
    ∧ (build_xml_response ⟨"M1", "S"⟩ "BAD" "" "500" []).signature =
        md5hex ("500" ++ "BAD" ++ "" ++ "S") :=
  ⟨by decide,
    outbound_signature_roundtrip.2 ⟨"M1", "S"⟩ ⟨[("MNT_ID", "BAD")], "", [], none⟩
      (fun _ => .error ⟨500, "x"⟩) (fun _ _ _ => .ok ()) (fun _ => "") 200
      (build_xml_response ⟨"M1", "S"⟩ "BAD" "" "500" []) (by decide)⟩

/-- Claim C3: Health-check detection: a request with zero parameters across
all three transport channels gets the plain-text `"OK"` acknowledgment
with HTTP 200, with no record-store call and no validation-failure
response. -/
theorem health_check_detection :
    ∀ (cfg : Config) (req : WebRequest)
      (em : String → Except PyError String)
      (up : String → String → String → Except PyError Unit)
      (inv : String → String),
      req.query = [] → req.form = [] →
      (req.jsonBody = none ∨ req.jsonBody = some []) →
      moneta_webhook cfg req em up inv =
        { calls := [], outcome := .response (.plainText 200 "OK") } := by
  intro cfg req em up inv hq hf hj
  have hA : hasAnyParams req = false := by
    have hjb : hasJson req = false := by
      rcases hj with h | h <;> simp [hasJson, h]
    simp [hasAnyParams, hasQuery, hasForm, hq, hf, hjb]
  simp [moneta_webhook, hA]

/-- Witness for claim C3: the fully empty request is answered by the
health-check response. -/
theorem health_check_detection_witness :
    moneta_webhook ⟨"M1", "S"⟩ ⟨[], "", [], none⟩
        (fun _ => .error ⟨500, "x"⟩) (fun _ _ _ => .ok ()) (fun _ => "") =
      { calls := [], outcome := .response (.plainText 200 "OK") } :=
  health_check_detection ⟨"M1", "S"⟩ ⟨[], "", [], none⟩
    (fun _ => .error ⟨500, "x"⟩) (fun _ _ _ => .ok ()) (fun _ => "")
    rfl rfl (Or.inl rfl)

/-- Claim C4: Signature case-insensitivity: if the received signature equals
the recomputed digest after lower-casing both sides, the check accepts;
and acceptance depends only on the case-normalized value of the received
signature field. -/
theorem signature_case_insensitive :
    (∀ (cfg : Config) (params : List (String × String)),
        pyLower (dget params "MNT_SIGNATURE" "") =
          pyLower (calculate_signature cfg params) →
        signatureAccepted cfg params = true)
    ∧ (∀ (cfg : Config) (params : List (String × String)) (s t : String),
        pyLower s = pyLower t →
        signatureAccepted cfg (dinsert params "MNT_SIGNATURE" s) =
          signatureAccepted cfg (dinsert params "MNT_SIGNATURE" t)) := by
  constructor
  · intro cfg params h
    unfold signatureAccepted
    rw [h, pyLower_calculate_signature]
    exact beq_self_eq_true _
  · intro cfg params s t h
    unfold signatureAccepted
    rw [calculate_signature_dinsert_sig, calculate_signature_dinsert_sig,
      dget_dinsert_same, dget_dinsert_same, h]

/-- Witness for claim C4: an upper-cased copy of the correct digest is
accepted. -/
theorem signature_case_insensitive_witness :
    signatureAccepted ⟨"M1", "S"⟩
      [("MNT_TRANSACTION_ID", "T1"), ("MNT_AMOUNT", "10.00"),
       ("MNT_CURRENCY_CODE", "RUB"),
       ("MNT_SIGNATURE", "542D88D61975F35BF4167C3BF0E4BC3E")] = true :=
  signature_case_insensitive.1 ⟨"M1", "S"⟩
    [("MNT_TRANSACTION_ID", "T1"), ("MNT_AMOUNT", "10.00"),
     ("MNT_CURRENCY_CODE", "RUB"),
     ("MNT_SIGNATURE", "542D88D61975F35BF4167C3BF0E4BC3E")] (by decide)

/-- Claim C5: Rejection before any write: on a request that carries
parameters, a merchant-id mismatch — and likewise a correct merchant id
with a failed signature check — produces no record-store call of any kind
and a "500" XML envelope with HTTP status 200. -/
theorem rejection_before_any_write :
    (∀ (cfg : Config) (req : WebRequest)
        (em : String → Except PyError String)
        (up : String → String → String → Except PyError Unit)
        (inv : String → String),
        collectParams req ≠ [] →
        dget (collectParams req) "MNT_ID" "" ≠ cfg.mntId →
        (moneta_webhook cfg req em up inv).calls = [] ∧
        ∃ env, (moneta_webhook cfg req em up inv).outcome =
            Outcome.response (WebResponse.xml 200 env) ∧ env.resultCode = "500")
    ∧ (∀ (cfg : Config) (req : WebRequest)
        (em : String → Except PyError String)
        (up : String → String → String → Except PyError Unit)
        (inv : String → String),
        collectParams req ≠ [] →
        dget (collectParams req) "MNT_ID" "" = cfg.mntId →
        signatureAccepted cfg (collectParams req) = false →
        (moneta_webhook cfg req em up inv).calls = [] ∧
        ∃ env, (moneta_webhook cfg req em up inv).outcome =
            Outcome.response (WebResponse.xml 200 env) ∧ env.resultCode = "500") := by
  constructor
  · intro cfg req em up inv hp hm
    rw [webhook_merchant_mismatch cfg req em up inv hp hm]
    exact ⟨rfl, _, rfl, rfl⟩
  · intro cfg req em up inv hp hm hs
    rw [webhook_sig_mismatch cfg req em up inv hp hm hs]
    exact ⟨rfl, _, rfl, rfl⟩

/-- Witness for claim C5: a wrong merchant id, and a correct merchant id with a
wrong signature, are both rejected without any record-store call. -/
theorem rejection_before_any_write_witness :
    ((moneta_webhook ⟨"M1", "S"⟩ ⟨[("MNT_ID", "M2")], "", [], none⟩
        (fun _ => .error ⟨500, "x"⟩) (fun _ _ _ => .ok ()) (fun _ => "")).calls = [] ∧
      ∃ env, (moneta_webhook ⟨"M1", "S"⟩ ⟨[("MNT_ID", "M2")], "", [], none⟩
          (fun _ => .error ⟨500, "x"⟩) (fun _ _ _ => .ok ()) (fun _ => "")).outcome =
          Outcome.response (WebResponse.xml 200 env) ∧ env.resultCode = "500")
    ∧ ((moneta_webhook ⟨"M1", "S"⟩
          ⟨[("MNT_ID", "M1"), ("MNT_SIGNATURE", "deadbeef")], "", [], none⟩
          (fun _ => .error ⟨500, "x"⟩) (fun _ _ _ => .ok ()) (fun _ => "")).calls = [] ∧
      ∃ env, (moneta_webhook ⟨"M1", "S"⟩
            ⟨[("MNT_ID", "M1"), ("MNT_SIGNATURE", "deadbeef")], "", [], none⟩
            (fun _ => .error ⟨500, "x"⟩) (fun _ _ _ => .ok ()) (fun _ => "")).outcome =
          Outcome.response (WebResponse.xml 200 env) ∧ env.resultCode = "500") :=
  ⟨rejection_before_any_write.1 ⟨"M1", "S"⟩ ⟨[("MNT_ID", "M2")], "", [], none⟩
      (fun _ => .error ⟨500, "x"⟩) (fun _ _ _ => .ok ()) (fun _ => "")
      (by decide) (by decide),
    rejection_before_any_write.2 ⟨"M1", "S"⟩
      ⟨[("MNT_ID", "M1"), ("MNT_SIGNATURE", "deadbeef")], "", [], none⟩
      (fun _ => .error ⟨500, "x"⟩) (fun _ _ _ => .ok ()) (fun _ => "")
      (by decide) (by decide) (by decide)⟩

/-- Claim C6, amended: Status derivation on the accepted path: with the
correct merchant id, a matching signature, *and a successful recipient
(e-mail) lookup*, the record-store update is invoked exactly once, on the
record identified by `MNT_TRANSACTION_ID`, with the amount string exactly
as received and status `"Test Paid"` iff the test-mode flag equals `"1"`,
else `"Paid"`. (The source performs the e-mail lookup before the update,
so a failed lookup aborts with zero updates — see the counterexample.) -/
theorem paid_status_update (cfg : Config) (req : WebRequest)
    (em : String → Except PyError String)
    (up : String → String → String → Except PyError Unit)
    (inv : String → String) (v : String)
    (hp : collectParams req ≠ [])
    (hm : dget (collectParams req) "MNT_ID" "" = cfg.mntId)
    (hs : signatureAccepted cfg (collectParams req) = true)
    (he : em (dget (collectParams req) "MNT_TRANSACTION_ID" "") = Except.ok v) :
    (moneta_webhook cfg req em up inv).calls.filter isUpdateCall =
      [AirtableCall.updateRecord (dget (collectParams req) "MNT_TRANSACTION_ID" "")
        (dget (collectParams req) "MNT_AMOUNT" "")
        (if dget (collectParams req) "MNT_TEST_MODE" "0" = "1"
          then "Test Paid" else "Paid")] := by
  rw [webhook_validated_calls cfg req em up inv v hp hm hs he]
  simp [List.filter, isUpdateCall]

/-- Counterexample for claim C6: a fully validated notification (correct
merchant id, matching signature) on which the claim's "update invoked
exactly once" fails: the e-mail lookup errors first and no update call is
ever made. -/
theorem paid_status_update_cex :
    dget (collectParams ⟨[("MNT_ID", "M1"), ("MNT_TRANSACTION_ID", "T1"),
        ("MNT_AMOUNT", "10.00"), ("MNT_CURRENCY_CODE", "RUB"),
        ("MNT_SIGNATURE", "542d88d61975f35bf4167c3bf0e4bc3e")], "", [], none⟩)
      "MNT_ID" "" = "M1"
    ∧ signatureAccepted ⟨"M1", "S"⟩
        (collectParams ⟨[("MNT_ID", "M1"), ("MNT_TRANSACTION_ID", "T1"),
          ("MNT_AMOUNT", "10.00"), ("MNT_CURRENCY_CODE", "RUB"),
          ("MNT_SIGNATURE", "542d88d61975f35bf4167c3bf0e4bc3e")], "", [], none⟩) = true
    ∧ (moneta_webhook ⟨"M1", "S"⟩
        ⟨[("MNT_ID", "M1"), ("MNT_TRANSACTION_ID", "T1"),
          ("MNT_AMOUNT", "10.00"), ("MNT_CURRENCY_CODE", "RUB"),
          ("MNT_SIGNATURE", "542d88d61975f35bf4167c3bf0e4bc3e")], "", [], none⟩
        (fun _ => Except.error ⟨404, "record not found"⟩)
        (fun _ _ _ => Except.ok ()) (fun _ => "inv")).calls.filter isUpdateCall =
      ([] : List AirtableCall) :=
  ⟨by decide, by decide, by decide⟩

/-- Witness for claim C6: a concrete validated test-mode notification yields
exactly one update call with status `"Test Paid"`. -/
theorem paid_status_update_witness :
    (moneta_webhook ⟨"M1", "S"⟩
        ⟨[("MNT_ID", "M1"), ("MNT_TRANSACTION_ID", "T2"),
          ("MNT_AMOUNT", "20.00"), ("MNT_CURRENCY_CODE", "RUB"),
          ("MNT_TEST_MODE", "1"),
          ("MNT_SIGNATURE", "e9274417b83afc627f159bc6fda922a2")], "", [], none⟩
        (fun _ => Except.ok "payer@example.com")
        (fun _ _ _ => Except.ok ()) (fun _ => "inv")).calls.filter isUpdateCall =
      [AirtableCall.updateRecord "T2" "20.00" "Test Paid"] := by
  rw [paid_status_update ⟨"M1", "S"⟩
    ⟨[("MNT_ID", "M1"), ("MNT_TRANSACTION_ID", "T2"),
      ("MNT_AMOUNT", "20.00"), ("MNT_CURRENCY_CODE", "RUB"),
      ("MNT_TEST_MODE", "1"),
      ("MNT_SIGNATURE", "e9274417b83afc627f159bc6fda922a2")], "", [], none⟩
    (fun _ => Except.ok "payer@example.com")
    (fun _ _ _ => Except.ok ()) (fun _ => "inv") "payer@example.com"
    (by decide) (by decide) (by decide) rfl]
  decide

/-- Claim C7, amended: Side-effect accounting: a validated notification
*whose recipient lookup succeeds* issues exactly one record-store write;
a notification rejected by the merchant-id check or by the signature
check issues zero writes. (When the recipient lookup fails, a validated
notification issues zero writes — see the counterexample.) -/
theorem side_effect_write_accounting :
    (∀ (cfg : Config) (req : WebRequest)
        (em : String → Except PyError String)
        (up : String → String → String → Except PyError Unit)
        (inv : String → String) (v : String),
        collectParams req ≠ [] →
        dget (collectParams req) "MNT_ID" "" = cfg.mntId →
        signatureAccepted cfg (collectParams req) = true →
        em (dget (collectParams req) "MNT_TRANSACTION_ID" "") = Except.ok v →
        (moneta_webhook cfg req em up inv).calls.countP isUpdateCall = 1)
    ∧ (∀ (cfg : Config) (req : WebRequest)
        (em : String → Except PyError String)
        (up : String → String → String → Except PyError Unit)
        (inv : String → String),
        collectParams req ≠ [] →
        dget (collectParams req) "MNT_ID" "" ≠ cfg.mntId →
        (moneta_webhook cfg req em up inv).calls.countP isUpdateCall = 0)
    ∧ (∀ (cfg : Config) (req : WebRequest)
        (em : String → Except PyError String)
        (up : String → String → String → Except PyError Unit)
        (inv : String → String),
        collectParams req ≠ [] →
        dget (collectParams req) "MNT_ID" "" = cfg.mntId →
        signatureAccepted cfg (collectParams req) = false →
        (moneta_webhook cfg req em up inv).calls.countP isUpdateCall = 0) := by
  refine ⟨?_, ?_, ?_⟩
  · intro cfg req em up inv v hp hm hs he
    rw [webhook_validated_calls cfg req em up inv v hp hm hs he]
    simp [List.countP_cons, isUpdateCall]
  · intro cfg req em up inv hp hm
    rw [webhook_merchant_mismatch cfg req em up inv hp hm]
    simp
  · intro cfg req em up inv hp hm hs
    rw [webhook_sig_mismatch cfg req em up inv hp hm hs]
    simp

/-- Counterexample for claim C7: a validated notification with a failing
recipient lookup performs zero record-store writes, refuting "exactly one
write per successfully-validated notification" as stated. -/
theorem side_effect_write_accounting_cex :
    dget (collectParams ⟨[("MNT_ID", "M1"), ("MNT_TRANSACTION_ID", "T3"),
        ("MNT_AMOUNT", "5.00"),
        ("MNT_SIGNATURE", "06aebadfc0be7f952f24aa67a23bed06")], "", [], none⟩)
      "MNT_ID" "" = "M1"
    ∧ signatureAccepted ⟨"M1", "S"⟩
        (collectParams ⟨[("MNT_ID", "M1"), ("MNT_TRANSACTION_ID", "T3"),
          ("MNT_AMOUNT", "5.00"),
          ("MNT_SIGNATURE", "06aebadfc0be7f952f24aa67a23bed06")], "", [], none⟩) = true
    ∧ (moneta_webhook ⟨"M1", "S"⟩
        ⟨[("MNT_ID", "M1"), ("MNT_TRANSACTION_ID", "T3"),
          ("MNT_AMOUNT", "5.00"),
          ("MNT_SIGNATURE", "06aebadfc0be7f952f24aa67a23bed06")], "", [], none⟩
        (fun _ => Except.error ⟨500, "Airtable GET failed"⟩)
        (fun _ _ _ => Except.ok ()) (fun _ => "inv")).calls.countP isUpdateCall = 0 :=
  ⟨by decide, by decide, by decide⟩

/-- Witness for claim C7: each branch of the accounting theorem at a concrete
input: one write on a validated notification with a good lookup, zero on
a merchant mismatch, zero on a signature mismatch. -/
theorem side_effect_write_accounting_witness :
    (moneta_webhook ⟨"M1", "S"⟩
        ⟨[("MNT_ID", "M1"), ("MNT_TRANSACTION_ID", "T4"), ("MNT_AMOUNT", "7.00"),
          ("MNT_SIGNATURE", "3f037f6d7407d1550d40b50d64a2e3a6")], "", [], none⟩
        (fun _ => Except.ok "r@example.com") (fun _ _ _ => Except.ok ())
        (fun _ => "inv")).calls.countP isUpdateCall = 1
    ∧ (moneta_webhook ⟨"M1", "S"⟩ ⟨[("MNT_ID", "OTHER")], "", [], none⟩
        (fun _ => Except.ok "r@example.com") (fun _ _ _ => Except.ok ())
        (fun _ => "inv")).calls.countP isUpdateCall = 0
    ∧ (moneta_webhook ⟨"M1", "S"⟩
        ⟨[("MNT_ID", "M1"), ("MNT_SIGNATURE", "0000")], "", [], none⟩
        (fun _ => Except.ok "r@example.com") (fun _ _ _ => Except.ok ())
        (fun _ => "inv")).calls.countP isUpdateCall = 0 :=
  ⟨side_effect_write_accounting.1 ⟨"M1", "S"⟩
      ⟨[("MNT_ID", "M1"), ("MNT_TRANSACTION_ID", "T4"), ("MNT_AMOUNT", "7.00"),
        ("MNT_SIGNATURE", "3f037f6d7407d1550d40b50d64a2e3a6")], "", [], none⟩
      (fun _ => Except.ok "r@example.com") (fun _ _ _ => Except.ok ())
      (fun _ => "inv") "r@example.com" (by decide) (by decide) (by decide) rfl,
    side_effect_write_accounting.2.1 ⟨"M1", "S"⟩
      ⟨[("MNT_ID", "OTHER")], "", [], none⟩
      (fun _ => Except.ok "r@example.com") (fun _ _ _ => Except.ok ())
      (fun _ => "inv") (by decide) (by decide),
    side_effect_write_accounting.2.2 ⟨"M1", "S"⟩
      ⟨[("MNT_ID", "M1"), ("MNT_SIGNATURE", "0000")], "", [], none⟩
      (fun _ => Except.ok "r@example.com") (fun _ _ _ => Except.ok ())
      (fun _ => "inv") (by decide) (by decide) (by decide)⟩

/-- Claim C8: Asymmetric error handling on the accepted path: every failure
of the record-update collaborator is caught and converted into the signed
"500" envelope (with exactly one update attempt — never retried, never
propagated), while a failure of the e-mail lookup is not caught and
escapes the handler as an uncaught fault. -/
theorem error_handling_asymmetry :
    (∀ (cfg : Config) (req : WebRequest)
        (em : String → Except PyError String)
        (up : String → String → String → Except PyError Unit)
        (inv : String → String) (v : String) (e : PyError),
        collectParams req ≠ [] →
        dget (collectParams req) "MNT_ID" "" = cfg.mntId →
        signatureAccepted cfg (collectParams req) = true →
        em (dget (collectParams req) "MNT_TRANSACTION_ID" "") = Except.ok v →
        up (dget (collectParams req) "MNT_TRANSACTION_ID" "")
            (dget (collectParams req) "MNT_AMOUNT" "")
            (if dget (collectParams req) "MNT_TEST_MODE" "0" = "1"
              then "Test Paid" else "Paid") = Except.error e →
        moneta_webhook cfg req em up inv =
          { calls := [.getEmail (dget (collectParams req) "MNT_TRANSACTION_ID" ""),
              .updateRecord (dget (collectParams req) "MNT_TRANSACTION_ID" "")
                (dget (collectParams req) "MNT_AMOUNT" "")
                (if dget (collectParams req) "MNT_TEST_MODE" "0" = "1"
                  then "Test Paid" else "Paid")]
            outcome := .response (.xml 200 (build_xml_response cfg
              cfg.mntId (dget (collectParams req) "MNT_TRANSACTION_ID" "")
              "500" [])) })
    ∧ (∀ (cfg : Config) (req : WebRequest)
        (em : String → Except PyError String)
        (up : String → String → String → Except PyError Unit)
        (inv : String → String) (e : PyError),
        collectParams req ≠ [] →
        dget (collectParams req) "MNT_ID" "" = cfg.mntId →
        signatureAccepted cfg (collectParams req) = true →
        em (dget (collectParams req) "MNT_TRANSACTION_ID" "") = Except.error e →
        moneta_webhook cfg req em up inv =
          { calls := [.getEmail (dget (collectParams req) "MNT_TRANSACTION_ID" "")]
            outcome := .raised e }) :=
  ⟨fun cfg req em up inv v e hp hm hs he hu =>
      webhook_update_error cfg req em up inv v e hp hm hs he hu,
    fun cfg req em up inv e hp hm hs he =>
      webhook_email_error cfg req em up inv e hp hm hs he⟩

/-- Witness for claim C8: concretely: a failing update is converted to the
signed "500" envelope after exactly one attempt; a failing e-mail lookup
escapes as a raised fault. -/
theorem error_handling_asymmetry_witness :
    moneta_webhook ⟨"M1", "S"⟩
        ⟨[("MNT_ID", "M1"), ("MNT_TRANSACTION_ID", "T5"), ("MNT_AMOUNT", "8.00"),
          ("MNT_SIGNATURE", "6ddefdbef4b8136de2ac716d3e59758f")], "", [], none⟩
        (fun _ => Except.ok "r@example.com")
        (fun _ _ _ => Except.error ⟨500, "Airtable update failed"⟩)
        (fun _ => "inv") =
      { calls := [.getEmail "T5", .updateRecord "T5" "8.00" "Paid"]
        outcome := .response (.xml 200 (build_xml_response ⟨"M1", "S"⟩
          "M1" "T5" "500" [])) }
    ∧ moneta_webhook ⟨"M1", "S"⟩
        ⟨[("MNT_ID", "M1"), ("MNT_TRANSACTION_ID", "T5"), ("MNT_AMOUNT", "8.00"),
          ("MNT_SIGNATURE", "6ddefdbef4b8136de2ac716d3e59758f")], "", [], none⟩
        (fun _ => Except.error ⟨404, "Email not found"⟩)
        (fun _ _ _ => Except.ok ()) (fun _ => "inv") =
      { calls := [.getEmail "T5"], outcome := .raised ⟨404, "Email not found"⟩ } := by
  constructor
  · rw [error_handling_asymmetry.1 ⟨"M1", "S"⟩
      ⟨[("MNT_ID", "M1"), ("MNT_TRANSACTION_ID", "T5"), ("MNT_AMOUNT", "8.00"),
        ("MNT_SIGNATURE", "6ddefdbef4b8136de2ac716d3e59758f")], "", [], none⟩
      (fun _ => Except.ok "r@example.com")
      (fun _ _ _ => Except.error ⟨500, "Airtable update failed"⟩)
      (fun _ => "inv") "r@example.com" ⟨500, "Airtable update failed"⟩
      (by decide) (by decide) (by decide) rfl rfl]
    decide
  · rw [error_handling_asymmetry.2 ⟨"M1", "S"⟩
      ⟨[("MNT_ID", "M1"), ("MNT_TRANSACTION_ID", "T5"), ("MNT_AMOUNT", "8.00"),
        ("MNT_SIGNATURE", "6ddefdbef4b8136de2ac716d3e59758f")], "", [], none⟩
      (fun _ => Except.error ⟨404, "Email not found"⟩)
      (fun _ _ _ => Except.ok ()) (fun _ => "inv") ⟨404, "Email not found"⟩
      (by decide) (by decide) (by decide) rfl]
    decide

/-- Claim C9: Parameter unification: a key in the merged mapping resolves
to its last-written JSON value (stringified) when the JSON channel supplies
it, else to its last-written form value when the form channel supplies it,
else to its last-written query value — i.e. the sources are merged in
order query → form → JSON with a later source overwriting an earlier one,
and JSON scalars stringified before merging. The handler reads only this
merged mapping. -/
theorem parameter_unification :
    ∀ (req : WebRequest) (k : String),
      (collectParams req).lookup k =
        oor ((if isJsonContent req && hasJson req then
                (req.jsonBody.getD []).map (fun kv => (kv.1, pyStr kv.2))
              else []).reverse.lookup k)
          (oor ((if isFormContent req && hasForm req then req.form
                 else []).reverse.lookup k)
            (req.query.reverse.lookup k)) := by
  intro req k
  by_cases hj : (isJsonContent req && hasJson req) = true
  · by_cases hf : (isFormContent req && hasForm req) = true
    · simp only [collectParams, if_pos hj, if_pos hf]
      rw [lookup_foldInsert, lookup_foldInsert, lookup_foldInsert]
      simp [List.lookup, oor_none_right]
    · simp only [collectParams, if_pos hj, if_neg hf]
      rw [lookup_foldInsert, lookup_foldInsert]
      simp [List.lookup, oor_none_right, oor_none_left]
  · by_cases hf : (isFormContent req && hasForm req) = true
    · simp only [collectParams, if_neg hj, if_pos hf]
      rw [lookup_foldInsert, lookup_foldInsert]
      simp [List.lookup, oor_none_right, oor_none_left]
    · simp only [collectParams, if_neg hj, if_neg hf]
      rw [lookup_foldInsert]
      simp [List.lookup, oor_none_right, oor_none_left]

/-- Claim C10: The two failure envelopes embed different merchant ids: a
merchant-id mismatch echoes the merchant id as received (possibly empty),
while a signature mismatch or an update failure embeds the configured
merchant id; every failure envelope embeds the received transaction id
(empty when absent). -/
theorem failure_envelope_identities :
    (∀ (cfg : Config) (req : WebRequest)
        (em : String → Except PyError String)
        (up : String → String → String → Except PyError Unit)
        (inv : String → String),
        collectParams req ≠ [] →
        dget (collectParams req) "MNT_ID" "" ≠ cfg.mntId →
        (moneta_webhook cfg req em up inv).outcome =
          Outcome.response (WebResponse.xml 200 (build_xml_response cfg
            (dget (collectParams req) "MNT_ID" "")
            (dget (collectParams req) "MNT_TRANSACTION_ID" "") "500" [])))
    ∧ (∀ (cfg : Config) (req : WebRequest)
        (em : String → Except PyError String)
        (up : String → String → String → Except PyError Unit)
        (inv : String → String),
        collectParams req ≠ [] →
        dget (collectParams req) "MNT_ID" "" = cfg.mntId →
        signatureAccepted cfg (collectParams req) = false →
        (moneta_webhook cfg req em up inv).outcome =
          Outcome.response (WebResponse.xml 200 (build_xml_response cfg
            cfg.mntId (dget (collectParams req) "MNT_TRANSACTION_ID" "") "500" [])))
    ∧ (∀ (cfg : Config) (req : WebRequest)
        (em : String → Except PyError String)
        (up : String → String → String → Except PyError Unit)
        (inv : String → String) (v : String) (e : PyError),
        collectParams req ≠ [] →
        dget (collectParams req) "MNT_ID" "" = cfg.mntId →
        signatureAccepted cfg (collectParams req) = true →
        em (dget (collectParams req) "MNT_TRANSACTION_ID" "") = Except.ok v →
        up (dget (collectParams req) "MNT_TRANSACTION_ID" "")
            (dget (collectParams req) "MNT_AMOUNT" "")
            (if dget (collectParams req) "MNT_TEST_MODE" "0" = "1"
              then "Test Paid" else "Paid") = Except.error e →
        (moneta_webhook cfg req em up inv).outcome =
          Outcome.response (WebResponse.xml 200 (build_xml_response cfg
            cfg.mntId (dget (collectParams req) "MNT_TRANSACTION_ID" "") "500" []))) := by
  refine ⟨?_, ?_, ?_⟩
  · intro cfg req em up inv hp hm
    rw [webhook_merchant_mismatch cfg req em up inv hp hm,
      pyOr_empty_default, pyOr_empty_default]
  · intro cfg req em up inv hp hm hs
    rw [webhook_sig_mismatch cfg req em up inv hp hm hs, pyOr_empty_default]
  · intro cfg req em up inv v e hp hm hs he hu
    rw [webhook_update_error cfg req em up inv v e hp hm hs he hu]

/-- Witness for claim C10: concretely: an absent merchant id is echoed back as
the empty string on mismatch; the configured id is embedded on signature
mismatch and on update failure, with the received transaction id. -/
theorem failure_envelope_identities_witness :
    (moneta_webhook ⟨"M1", "S"⟩ ⟨[("MNT_TRANSACTION_ID", "T9")], "", [], none⟩
        (fun _ => Except.ok "r@example.com") (fun _ _ _ => Except.ok ())
        (fun _ => "inv")).outcome =
      Outcome.response (WebResponse.xml 200
        (build_xml_response ⟨"M1", "S"⟩ "" "T9" "500" []))
    ∧ (moneta_webhook ⟨"M1", "S"⟩
        ⟨[("MNT_ID", "M1"), ("MNT_TRANSACTION_ID", "T9"),
          ("MNT_SIGNATURE", "ffff")], "", [], none⟩
        (fun _ => Except.ok "r@example.com") (fun _ _ _ => Except.ok ())
        (fun _ => "inv")).outcome =
      Outcome.response (WebResponse.xml 200
        (build_xml_response ⟨"M1", "S"⟩ "M1" "T9" "500" []))
    ∧ (moneta_webhook ⟨"M1", "S"⟩
        ⟨[("MNT_ID", "M1"), ("MNT_TRANSACTION_ID", "T5"), ("MNT_AMOUNT", "8.00"),
          ("MNT_SIGNATURE", "6ddefdbef4b8136de2ac716d3e59758f")], "", [], none⟩
        (fun _ => Except.ok "r@example.com")
        (fun _ _ _ => Except.error ⟨500, "update failed"⟩)
        (fun _ => "inv")).outcome =
      Outcome.response (WebResponse.xml 200
        (build_xml_response ⟨"M1", "S"⟩ "M1" "T5" "500" [])) :=
  ⟨failure_envelope_identities.1 ⟨"M1", "S"⟩
      ⟨[("MNT_TRANSACTION_ID", "T9")], "", [], none⟩
      (fun _ => Except.ok "r@example.com") (fun _ _ _ => Except.ok ())
      (fun _ => "inv") (by decide) (by decide),
    failure_envelope_identities.2.1 ⟨"M1", "S"⟩
      ⟨[("MNT_ID", "M1"), ("MNT_TRANSACTION_ID", "T9"),
        ("MNT_SIGNATURE", "ffff")], "", [], none⟩
      (fun _ => Except.ok "r@example.com") (fun _ _ _ => Except.ok ())
      (fun _ => "inv") (by decide) (by decide) (by decide),
    failure_envelope_identities.2.2 ⟨"M1", "S"⟩
      ⟨[("MNT_ID", "M1"), ("MNT_TRANSACTION_ID", "T5"), ("MNT_AMOUNT", "8.00"),
        ("MNT_SIGNATURE", "6ddefdbef4b8136de2ac716d3e59758f")], "", [], none⟩
      (fun _ => Except.ok "r@example.com")
      (fun _ _ _ => Except.error ⟨500, "update failed"⟩)
      (fun _ => "inv") "r@example.com" ⟨500, "update failed"⟩
      (by decide) (by decide) (by decide) rfl rfl⟩

end PayAnyWay
